import Mathlib

/-!
Shallow embedding of the navigation core of the J-VITA/j-browser repository.

Embedded source:
  * `src/browser/navigation.rs` — `Navigation` (VecDeque-backed history with a
    `current_index` cursor) and its methods `new`, `navigate`, `can_go_back`,
    `can_go_forward`, `go_back`, `go_forward`, `current_url`.
  * `src/browser/engine.rs`, the `"navigate"` arm of the IPC handler in
    `run_event_loop` — the URL-vs-search classifier.

Modelling choices:
  * `VecDeque<String>` is a `List String` (only `push_back`, `len` and `get`
    are used by the source); `usize` values are `Nat`.
  * The one `usize` subtraction that can underflow, `self.history.len() - 1`
    inside `can_go_forward`, is modelled with release-mode wrapping semantics
    (`usizeSub1`).  The other subtractions and the increment in the source are
    guarded so that they can neither underflow nor overflow for any list a
    Rust `VecDeque` can hold, and are modelled with plain `Nat` arithmetic.
  * `url::Url::parse` is a third-party function; `navigate` only branches on
    whether it succeeds, so the embedding takes the parser as an explicit
    boolean oracle `parseOk` and is faithful for every choice of oracle.
-/

/-- The number of values of Rust's 64-bit `usize`. -/
def USIZE : Nat := 2 ^ 64

/-- Release-mode wrapping semantics of the Rust expression `n - 1` at type
`usize`: on `n = 0` the subtraction underflows and wraps to `2^64 - 1`.
Faithful to the machine for every `n ≤ USIZE`. -/
def usizeSub1 (n : Nat) : Nat := (n + (USIZE - 1)) % USIZE

/-- Embedding of `struct Navigation` from `src/browser/navigation.rs`:
`history: VecDeque<String>` and `current_index: usize`. -/
structure Navigation where
  history : List String
  current_index : Nat
deriving DecidableEq, Repr

/-- `Navigation::new()`: empty history, cursor `0`. -/
def Navigation.new : Navigation := ⟨[], 0⟩

/-- `Navigation::navigate(&mut self, url) -> Result<Url, ParseError>`.
The source first runs `Url::parse(&url)?` — modelled by the oracle
`parseOk` — and on failure returns the parse error with no mutation;
on success it pushes `url` onto the back of `history` and sets
`current_index = history.len() - 1` (the list is non-empty there, so plain
`Nat` subtraction is exact).  The returned `Url` value is modelled by the
accepted string. -/
def Navigation.navigate (parseOk : String → Bool) (nav : Navigation)
    (url : String) : Navigation × Except Unit String :=
  if parseOk url then
    let h := nav.history ++ [url]
    (⟨h, h.length - 1⟩, Except.ok url)
  else
    (nav, Except.error ())

/-- `Navigation::can_go_back()`: `self.current_index > 0`. -/
def Navigation.can_go_back (nav : Navigation) : Bool :=
  decide (0 < nav.current_index)

/-- `Navigation::can_go_forward()`: `self.current_index < self.history.len() - 1`,
with the `usize` subtraction wrapping on an empty history. -/
def Navigation.can_go_forward (nav : Navigation) : Bool :=
  decide (nav.current_index < usizeSub1 nav.history.length)

/-- `Navigation::go_back()`: when `can_go_back()`, decrement the cursor and
return `history.get(cursor).cloned()`; otherwise return `None` untouched. -/
def Navigation.go_back (nav : Navigation) : Navigation × Option String :=
  if nav.can_go_back then
    let i := nav.current_index - 1
    (⟨nav.history, i⟩, nav.history.get? i)
  else
    (nav, none)

/-- `Navigation::go_forward()`: when `can_go_forward()`, increment the cursor
and return `history.get(cursor).cloned()`; otherwise return `None` untouched. -/
def Navigation.go_forward (nav : Navigation) : Navigation × Option String :=
  if nav.can_go_forward then
    let i := nav.current_index + 1
    (⟨nav.history, i⟩, nav.history.get? i)
  else
    (nav, none)

/-- `Navigation::current_url()`: `self.history.get(self.current_index)`. -/
def Navigation.current_url (nav : Navigation) : Option String :=
  nav.history.get? nav.current_index

/-- A sequence of `navigate` calls applied in order to a session (the spec's
"sequences of navigate calls"). -/
def navigateAll (parseOk : String → Bool) (nav : Navigation)
    (urls : List String) : Navigation :=
  urls.foldl (fun n u => (n.navigate parseOk u).1) nav

/-- The session states reachable from a fresh `Navigation::new()` by any
sequence of `navigate` (under any parse outcome), `go_back` and `go_forward`
calls; the remaining operations (`can_go_back`, `can_go_forward`,
`current_url`) take `&self` and do not change the state. -/
inductive Reachable : Navigation → Prop
  | new : Reachable Navigation.new
  | nav (parseOk : String → Bool) (url : String) {s : Navigation} :
      Reachable s → Reachable (s.navigate parseOk url).1
  | back {s : Navigation} : Reachable s → Reachable s.go_back.1
  | fwd {s : Navigation} : Reachable s → Reachable s.go_forward.1

-- Arithmetic facts about the wrapping subtraction.

theorem usizeSub1_eq_of_le {n : Nat} (h1 : 1 ≤ n) (h2 : n ≤ USIZE) :
    usizeSub1 n = n - 1 := by
  unfold usizeSub1
  have hU : 0 < USIZE := by decide
  have he : n + (USIZE - 1) = (n - 1) + USIZE := by omega
  rw [he, Nat.add_mod_right]
  exact Nat.mod_eq_of_lt (by omega)

theorem usizeSub1_le {n : Nat} (h1 : 1 ≤ n) : usizeSub1 n ≤ n - 1 := by
  by_cases h2 : n ≤ USIZE
  · exact le_of_eq (usizeSub1_eq_of_le h1 h2)
  · have hU : 0 < USIZE := by decide
    have : usizeSub1 n < USIZE := Nat.mod_lt _ hU
    omega

/-- C1: the spec reads `can_go_forward` over the mathematical integers, so on
an empty session it must return `false` and never underflow.  The code
computes `self.current_index < self.history.len() - 1` at type `usize`: on a
fresh session `len()` is `0`, the subtraction underflows (panicking in debug
builds, wrapping to `2^64 - 1` in release builds), and the release-mode value
is `true`, while `cursor < len - 1` over ℤ is `0 < -1`, i.e. false. -/
theorem navigation_can_go_forward_empty_underflows :
    Navigation.new.can_go_forward = true ∧
      ¬ ((Navigation.new.current_index : Int) <
          (Navigation.new.history.length : Int) - 1) := by
  constructor
  · decide
  · decide

/-- C7: on a freshly created session, `can_go_back()` is `false`, `go_back()`
returns nothing (and changes nothing), and `current_url()` is nothing. -/
theorem fresh_session_back_observers :
    Navigation.new.can_go_back = false ∧
      Navigation.new.go_back = (Navigation.new, none) ∧
      Navigation.new.current_url = none := by
  refine ⟨by decide, ?_, by decide⟩
  decide

/-- C3: when `Url::parse` fails, `navigate` returns the parse error and the
session is exactly what it was: entries and cursor are untouched.  The
statement quantifies over every parse oracle, so it holds whatever set of
strings the url crate rejects. -/
theorem navigate_invalid_leaves_state_unchanged
    (parseOk : String → Bool) (nav : Navigation) (url : String)
    (h : parseOk url = false) :
    nav.navigate parseOk url = (nav, Except.error ()) := by
  simp [Navigation.navigate, h]

theorem navigate_invalid_leaves_state_unchanged_witness :
    Navigation.new.navigate (fun _ => false) "not a url" =
      (Navigation.new, Except.error ()) :=
  navigate_invalid_leaves_state_unchanged (fun _ => false) Navigation.new
    "not a url" rfl

/-- C4: when the input parses, `navigate` appends it at the end of the
entries — so every existing entry survives, even from a non-tail cursor —
and sets the cursor to `len(entries) - 1`. -/
theorem navigate_valid_appends_and_moves_cursor
    (parseOk : String → Bool) (nav : Navigation) (url : String)
    (h : parseOk url = true) :
    (nav.navigate parseOk url).1.history = nav.history ++ [url] ∧
    (nav.navigate parseOk url).1.current_index =
      (nav.navigate parseOk url).1.history.length - 1 ∧
    (nav.navigate parseOk url).2 = Except.ok url := by
  simp [Navigation.navigate, h]

theorem navigate_valid_appends_and_moves_cursor_witness :
    ((⟨["https://a.test", "https://b.test"], 0⟩ : Navigation).navigate
        (fun _ => true) "https://c.test").1.history =
      ["https://a.test", "https://b.test"] ++ ["https://c.test"] ∧
    ((⟨["https://a.test", "https://b.test"], 0⟩ : Navigation).navigate
        (fun _ => true) "https://c.test").1.current_index =
      ((⟨["https://a.test", "https://b.test"], 0⟩ : Navigation).navigate
        (fun _ => true) "https://c.test").1.history.length - 1 ∧
    ((⟨["https://a.test", "https://b.test"], 0⟩ : Navigation).navigate
        (fun _ => true) "https://c.test").2 = Except.ok "https://c.test" :=
  navigate_valid_appends_and_moves_cursor (fun _ => true)
    ⟨["https://a.test", "https://b.test"], 0⟩ "https://c.test" rfl

/-- C5 counterexample: a session with two entries and cursor `0` (reachable by
two navigations followed by `go_back`) has history length ≥ 2, yet `go_back`
(a no-op at the left boundary) followed by `go_forward` moves the current
address from the first entry to the second instead of restoring it. -/
theorem back_forward_roundtrip_refuted_at_cursor_zero :
    2 ≤ (⟨["https://a.test", "https://b.test"], 0⟩ : Navigation).history.length ∧
    ((⟨["https://a.test", "https://b.test"], 0⟩ : Navigation).go_back.1.go_forward.1).current_url ≠
      (⟨["https://a.test", "https://b.test"], 0⟩ : Navigation).current_url := by
  constructor
  · decide
  · decide

/-- C5 amended: for any session with `can_go_back()` true and an in-range
cursor (`cursor < len(entries)`, the data-model invariant, so the history has
length ≥ 2; lengths are bounded by the `usize` range), `go_back` immediately
followed by `go_forward` restores the whole state, and with it
`current_address()`, to its pre-back value. -/
theorem back_forward_roundtrip_restores (s : Navigation)
    (hb : s.can_go_back = true)
    (hlt : s.current_index < s.history.length)
    (hcap : s.history.length ≤ USIZE) :
    s.go_back.1.go_forward.1 = s ∧
    s.go_back.1.go_forward.1.current_url = s.current_url := by
  obtain ⟨hist, c⟩ := s
  simp only [Navigation.can_go_back, decide_eq_true_eq] at hb
  simp only at hlt hcap
  have hlen : 1 ≤ hist.length := by omega
  have h1 : (⟨hist, c⟩ : Navigation).go_back.1 = ⟨hist, c - 1⟩ := by
    simp [Navigation.go_back, Navigation.can_go_back, hb]
  have hfwd : (⟨hist, c - 1⟩ : Navigation).can_go_forward = true := by
    simp only [Navigation.can_go_forward, decide_eq_true_eq]
    rw [usizeSub1_eq_of_le hlen hcap]
    omega
  have h2 : (⟨hist, c - 1⟩ : Navigation).go_forward.1 = ⟨hist, c⟩ := by
    simp only [Navigation.go_forward, hfwd, if_pos]
    have : c - 1 + 1 = c := by omega
    simp [this]
  rw [h1, h2]
  exact ⟨rfl, rfl⟩

theorem back_forward_roundtrip_restores_witness :
    (⟨["https://a.test", "https://b.test"], 1⟩ : Navigation).go_back.1.go_forward.1 =
      (⟨["https://a.test", "https://b.test"], 1⟩ : Navigation) ∧
    (⟨["https://a.test", "https://b.test"], 1⟩ : Navigation).go_back.1.go_forward.1.current_url =
      (⟨["https://a.test", "https://b.test"], 1⟩ : Navigation).current_url :=
  back_forward_roundtrip_restores ⟨["https://a.test", "https://b.test"], 1⟩
    (by decide) (by decide) (by decide)

-- Effect of a whole sequence of successful navigations on a session.
theorem navigateAll_eq (parseOk : String → Bool) :
    ∀ (urls : List String) (nav : Navigation),
      (∀ u ∈ urls, parseOk u = true) → urls ≠ [] →
      navigateAll parseOk nav urls =
        ⟨nav.history ++ urls, nav.history.length + urls.length - 1⟩ := by
  intro urls
  induction urls with
  | nil => intro nav _ hne; exact absurd rfl hne
  | cons u rest ih =>
    intro nav hall _
    have hu : parseOk u = true := hall u (by simp)
    have hstep : navigateAll parseOk nav (u :: rest) =
        navigateAll parseOk (nav.navigate parseOk u).1 rest := rfl
    by_cases hr : rest = []
    · subst hr
      simp [navigateAll, Navigation.navigate, hu]
    · rw [hstep, ih (nav.navigate parseOk u).1
        (fun v hv => hall v (by simp [hv])) hr]
      simp only [Navigation.navigate, hu, if_pos]
      simp [Navigation.mk.injEq, List.length_append]

/-- C6: after any sequence of successful navigations from a fresh session,
`current_address()` is the most recently navigated address and
`can_go_back()` holds iff more than one address has been navigated.  "After
each call" follows because every prefix of the sequence is itself such a
sequence. -/
theorem navigate_sequence_current_and_can_go_back
    (parseOk : String → Bool) (urls : List String)
    (hall : ∀ u ∈ urls, parseOk u = true) :
    (navigateAll parseOk Navigation.new urls).current_url = urls.getLast? ∧
    (navigateAll parseOk Navigation.new urls).can_go_back =
      decide (1 < urls.length) := by
  by_cases hne : urls = []
  · subst hne
    exact ⟨rfl, rfl⟩
  · rw [navigateAll_eq parseOk urls Navigation.new hall hne]
    constructor
    · simp [Navigation.current_url, Navigation.new, List.getLast?_eq_getElem?]
    · simp only [Navigation.can_go_back, Navigation.new, List.nil_append,
        List.length_nil, Nat.zero_add]
      rw [decide_eq_decide]
      omega

theorem navigate_sequence_current_and_can_go_back_witness :
    (navigateAll (fun _ => true) Navigation.new
        ["https://a.test", "https://b.test"]).current_url =
      ["https://a.test", "https://b.test"].getLast? ∧
    (navigateAll (fun _ => true) Navigation.new
        ["https://a.test", "https://b.test"]).can_go_back =
      decide (1 < (["https://a.test", "https://b.test"] : List String).length) :=
  navigate_sequence_current_and_can_go_back (fun _ => true)
    ["https://a.test", "https://b.test"] (by intro u _; rfl)

/-- C9: every state reachable from a fresh session by any sequence of tracker
operations satisfies the data-model invariant: whenever the entries are
non-empty, `cursor < len(entries)` (the lower bound `0 ≤ cursor` is inherent
in the `usize`/`Nat` type of the cursor). -/
theorem reachable_invariant_cursor_lt_length (s : Navigation)
    (hr : Reachable s) :
    s.history ≠ [] → s.current_index < s.history.length := by
  induction hr with
  | new => intro h; exact absurd rfl h
  | nav parseOk url hs ih =>
    rename_i t
    by_cases hp : parseOk url = true
    · simp [Navigation.navigate, hp]
    · simp only [Bool.not_eq_true] at hp
      simp only [Navigation.navigate, hp]
      exact ih
  | back hs ih =>
    rename_i t
    by_cases hb : t.can_go_back = true
    · simp only [Navigation.go_back, hb, if_pos]
      intro hne
      have := ih hne
      omega
    · simp only [Bool.not_eq_true] at hb
      simp only [Navigation.go_back, hb, Bool.false_eq_true, if_false]
      exact ih
  | fwd hs ih =>
    rename_i t
    by_cases hf : t.can_go_forward = true
    · simp only [Navigation.go_forward, hf, if_pos]
      intro hne
      have hlen : 1 ≤ t.history.length := List.length_pos.mpr hne
      simp only [Navigation.can_go_forward, decide_eq_true_eq] at hf
      have hle := usizeSub1_le hlen
      omega
    · simp only [Bool.not_eq_true] at hf
      simp only [Navigation.go_forward, hf, Bool.false_eq_true, if_false]
      exact ih

theorem reachable_invariant_cursor_lt_length_witness :
    (Navigation.new.navigate (fun _ => true) "https://a.test").1.current_index <
      (Navigation.new.navigate (fun _ => true) "https://a.test").1.history.length :=
  reachable_invariant_cursor_lt_length _
    (Reachable.nav (fun _ => true) "https://a.test" Reachable.new)
    (by decide)

/-- C10 counterexample: on a fresh session (empty entries, cursor 0),
`go_forward()` returns nothing yet mutates the session — the underflowing
`can_go_forward` guard lets it bump the cursor to `1`. -/
theorem noop_frame_claim_refuted_on_empty :
    Navigation.new.go_forward.2 = none ∧
    Navigation.new.go_forward.1 ≠ Navigation.new := by
  constructor
  · decide
  · decide

/-- C10 amended: for every session whose cursor is a valid index
(`cursor < len(entries)` — in particular every reachable session with
non-empty entries), whenever `go_back()` or `go_forward()` returns nothing
the session is left completely unchanged. -/
theorem noop_frame_holds_in_range (s : Navigation)
    (h : s.current_index < s.history.length) :
    (s.go_back.2 = none → s.go_back.1 = s) ∧
    (s.go_forward.2 = none → s.go_forward.1 = s) := by
  constructor
  · by_cases hb : s.can_go_back = true
    · simp only [Navigation.go_back, hb, if_pos]
      intro hnone
      rw [List.get?_eq_getElem?, List.getElem?_eq_none_iff] at hnone
      omega
    · simp only [Bool.not_eq_true] at hb
      simp [Navigation.go_back, hb]
  · by_cases hf : s.can_go_forward = true
    · simp only [Navigation.go_forward, hf, if_pos]
      intro hnone
      rw [List.get?_eq_getElem?, List.getElem?_eq_none_iff] at hnone
      have hlen : 1 ≤ s.history.length := by omega
      simp only [Navigation.can_go_forward, decide_eq_true_eq] at hf
      have hle := usizeSub1_le hlen
      omega
    · simp only [Bool.not_eq_true] at hf
      simp [Navigation.go_forward, hf]

theorem noop_frame_holds_in_range_witness :
    ((⟨["https://a.test"], 0⟩ : Navigation).go_back.2 = none →
      (⟨["https://a.test"], 0⟩ : Navigation).go_back.1 =
        (⟨["https://a.test"], 0⟩ : Navigation)) ∧
    ((⟨["https://a.test"], 0⟩ : Navigation).go_forward.2 = none →
      (⟨["https://a.test"], 0⟩ : Navigation).go_forward.1 =
        (⟨["https://a.test"], 0⟩ : Navigation)) :=
  noop_frame_holds_in_range ⟨["https://a.test"], 0⟩ (by decide)

/-!
URL-vs-search classifier from the `"navigate"` arm of the IPC handler in
`src/browser/engine.rs`:

  let target = if u.starts_with("http://") || u.starts_with("https://") {
      u.to_string()
  } else if u.contains('.') && !u.contains(' ') {
      format!("https://{}", u)
  } else {
      format!("https://www.google.com/search?q={}", urlencoding::encode(u))
  };

String primitives are embedded over `String.data : List Char` by structural
recursion so that every definition evaluates inside the kernel.
-/

/-- Rust `str::starts_with(pat)` on character sequences. -/
def listStartsWith : List Char → List Char → Bool
  | _, [] => true
  | [], _ :: _ => false
  | c :: s, p :: ps => c == p && listStartsWith s ps

/-- Rust `str::starts_with` for a string pattern. -/
def strStartsWith (s pat : String) : Bool := listStartsWith s.data pat.data

/-- Rust `str::contains(char)`. -/
def strContainsChar (s : String) (c : Char) : Bool :=
  s.data.any (fun d => d == c)

/-- Byte kept verbatim by `urlencoding::encode`: ASCII alphanumeric or one of
`-`, `_`, `.`, `~`. -/
def isUnresByte (b : UInt8) : Bool :=
  let n := b.toNat
  decide ((65 ≤ n ∧ n ≤ 90) ∨ (97 ≤ n ∧ n ≤ 122) ∨ (48 ≤ n ∧ n ≤ 57) ∨
    n = 45 ∨ n = 95 ∨ n = 46 ∨ n = 126)

/-- Uppercase hexadecimal digit, as produced by `urlencoding::encode`. -/
def hexDigitChar (n : Nat) : Char :=
  if n < 10 then Char.ofNat (48 + n) else Char.ofNat (55 + n)

/-- Percent-encoding of a UTF-8 byte sequence as done by
`urlencoding::encode`. -/
def urlencodeBytes : List UInt8 → List Char
  | [] => []
  | b :: bs =>
      if isUnresByte b then Char.ofNat b.toNat :: urlencodeBytes bs
      else '%' :: hexDigitChar (b.toNat / 16) :: hexDigitChar (b.toNat % 16) ::
        urlencodeBytes bs

/-- `urlencoding::encode` on a string (UTF-8 percent-encoding). -/
def urlencode (s : String) : String := String.mk (urlencodeBytes s.toUTF8.toList)

/-- The spec's Classification Result data model: `Address(normalized_url)`
or `SearchQuery(raw_text)`. -/
inductive Classification where
  | address (url : String)
  | searchQuery (text : String)
deriving DecidableEq, Repr

/-- The classifier decision of the IPC `"navigate"` arm, phrased in the
spec's `Address`/`SearchQuery` vocabulary: the branch structure is exactly
the source's `if`/`else if`/`else` chain. -/
def classify (u : String) : Classification :=
  if strStartsWith u "http://" || strStartsWith u "https://" then
    Classification.address u
  else if strContainsChar u '.' && !(strContainsChar u ' ') then
    Classification.address ("https://" ++ u)
  else
    Classification.searchQuery u

/-- The URL actually loaded by the source for a classification: an address
is loaded as-is, a search query is wrapped in the search-engine URL with the
raw text percent-encoded. -/
def renderClassification : Classification → String
  | Classification.address a => a
  | Classification.searchQuery q =>
      "https://www.google.com/search?q=" ++ urlencode q

/-- The `target` string computed by the source, verbatim. -/
def navigateTarget (u : String) : String :=
  if strStartsWith u "http://" || strStartsWith u "https://" then u
  else if strContainsChar u '.' && !(strContainsChar u ' ') then "https://" ++ u
  else "https://www.google.com/search?q=" ++ urlencode u

-- The classifier abstraction loses nothing: rendering it gives the source's
-- `target` string.
theorem navigateTarget_eq_render (u : String) :
    navigateTarget u = renderClassification (classify u) := by
  by_cases h1 : (strStartsWith u "http://" || strStartsWith u "https://") = true
  · simp [navigateTarget, classify, renderClassification, h1]
  · simp only [Bool.not_eq_true] at h1
    by_cases h2 : (strContainsChar u '.' && !(strContainsChar u ' ')) = true
    · simp [navigateTarget, classify, renderClassification, h1, h2]
    · simp only [Bool.not_eq_true] at h2
      simp [navigateTarget, classify, renderClassification, h1, h2]

/-- Modelled from the spec: the spec's classification step 1, "attempt strict
URL parse; if it succeeds and the scheme is `http` or `https`" — the source
delegates URL parsing to the third-party url crate (WHATWG parser), whose
code is not part of this repository.  The model covers the fragment the
claims exercise: an ASCII-case-insensitive `http://` or `https://` scheme
(URL schemes are case-insensitive), followed by a non-empty authority, up to
the first `/`, `?` or `#`, that contains no whitespace (whitespace makes the
host invalid). -/
def asciiLowerChar (c : Char) : Char :=
  if 'A' ≤ c ∧ c ≤ 'Z' then Char.ofNat (c.toNat + 32) else c

/-- Whitespace as the spec's classifier wording uses it: space, tab,
newline, carriage return. -/
def isSpecWhitespace (c : Char) : Bool :=
  c == ' ' || c == '\t' || c == '\n' || c == '\r'

/-- Modelled from the spec: decides whether an input "strictly parses as an
http/https URL" (see `asciiLowerChar` for the missing-code note). -/
def specStrictHttpParse (s : String) : Bool :=
  let low := s.data.map asciiLowerChar
  let rest :=
    if listStartsWith low ("http://".data) then some (s.data.drop 7)
    else if listStartsWith low ("https://".data) then some (s.data.drop 8)
    else none
  match rest with
  | none => false
  | some r =>
      let host := r.takeWhile (fun c => !(c == '/' || c == '?' || c == '#'))
      !host.isEmpty && host.all (fun c => !(isSpecWhitespace c))

/-- C2 counterexample: `"HTTP://example.com"` strictly parses as an http URL
(schemes are ASCII-case-insensitive), yet the code — which tests the literal
lowercase prefixes, not a parse — does not return `Address` of the input
unchanged: it rewrites it to `Address("https://HTTP://example.com")` through
the bare-domain branch. -/
theorem classify_strict_scheme_claim_refuted :
    specStrictHttpParse "HTTP://example.com" = true ∧
    classify "HTTP://example.com" ≠
      Classification.address "HTTP://example.com" := by
  constructor
  · decide
  · decide

/-- C2 amended: the classifier first tests whether the input starts with the
literal prefixes `http://` or `https://` and, if so, returns `Address` of
the input unchanged; this test takes precedence over the bare-domain
heuristic and the search fallback, so a prefixed input is never a search;
and `classify("")` is `SearchQuery("")`. -/
theorem classify_scheme_literal_first :
    (∀ u : String,
        (strStartsWith u "http://" || strStartsWith u "https://") = true →
        classify u = Classification.address u) ∧
    classify "" = Classification.searchQuery "" := by
  constructor
  · intro u h
    simp [classify, h]
  · decide

theorem classify_scheme_literal_first_witness :
    classify "https://example.com" =
      Classification.address "https://example.com" ∧
    classify "" = Classification.searchQuery "" :=
  ⟨classify_scheme_literal_first.1 "https://example.com" (by decide),
   classify_scheme_literal_first.2⟩

/-- C8 counterexample, at two inputs.  `"http://exa mple.com"` does not
strictly parse (space in the host), contains a dot and whitespace, so the
claim sends it to `SearchQuery`; the code's literal-prefix test fires first
and yields `Address("http://exa mple.com")`.  `"a.b\t c" minus the space` —
`"a.b\tc"` — does not strictly parse, contains a dot and whitespace (a tab),
so the claim again says `SearchQuery`; the code only tests for the space
character, so its bare-domain branch yields `Address("https://a.b\tc")`. -/
theorem classify_bare_domain_claim_refuted :
    (specStrictHttpParse "http://exa mple.com" = false ∧
     strContainsChar "http://exa mple.com" '.' = true ∧
     "http://exa mple.com".data.any isSpecWhitespace = true ∧
     classify "http://exa mple.com" ≠
       Classification.searchQuery "http://exa mple.com") ∧
    (specStrictHttpParse "a.b\tc" = false ∧
     strContainsChar "a.b\tc" '.' = true ∧
     "a.b\tc".data.any isSpecWhitespace = true ∧
     classify "a.b\tc" ≠ Classification.searchQuery "a.b\tc") := by
  refine ⟨⟨?_, ?_, ?_, ?_⟩, ⟨?_, ?_, ?_, ?_⟩⟩ <;> decide

/-- C8 amended: for every input that does not start with the literal
prefixes `http://` or `https://`: if it contains a `.` and no space
character, the classifier returns `Address("https://" + input)` (so
`classify("example.com") = Address("https://example.com")`); if it contains
a dot but also a space, it falls through to `SearchQuery(input)`. -/
theorem classify_bare_domain_space_rule :
    (∀ u : String,
        strStartsWith u "http://" = false →
        strStartsWith u "https://" = false →
        ((strContainsChar u '.' = true ∧ strContainsChar u ' ' = false) →
            classify u = Classification.address ("https://" ++ u)) ∧
        ((strContainsChar u '.' = true ∧ strContainsChar u ' ' = true) →
            classify u = Classification.searchQuery u)) ∧
    classify "example.com" = Classification.address "https://example.com" := by
  constructor
  · intro u h1 h2
    constructor
    · rintro ⟨hd, hs⟩
      simp [classify, h1, h2, hd, hs]
    · rintro ⟨hd, hs⟩
      simp [classify, h1, h2, hd, hs]
  · decide

theorem classify_bare_domain_space_rule_witness :
    classify "a.b" = Classification.address ("https://" ++ "a.b") ∧
    classify "a.b c" = Classification.searchQuery "a.b c" :=
  ⟨(classify_bare_domain_space_rule.1 "a.b" (by decide) (by decide)).1
      ⟨by decide, by decide⟩,
   (classify_bare_domain_space_rule.1 "a.b c" (by decide) (by decide)).2
      ⟨by decide, by decide⟩⟩
